import Mathlib

/-!
Verification of the derived-state, persistence and schema-guard logic of
src/streamlit_app.py (a Streamlit + SQLite inventory application).

The Python source is shallowly embedded: each function of the source that the
claims mention is translated into an executable Lean definition with the same
name.  Machine floats of the source (`ponto / 35.0`, `qtd / c`) act only on
exactly-representable values in the claims and are modelled as `Rat`;
calendar dates are modelled as integer day numbers (`date.today()` becomes a
parameter `today`, `timedelta(days = n)` becomes `+ n`); SQLite NULL and
pandas NaN/None are modelled as `Option.none`.
-/

/-! ## Derived-State Engine (src/streamlit_app.py lines 294-344) -/

/-- Embedding of one raw item row as seen by `classificar_linha` after the
normalization block of lines 280-282: `qtd_atual`, `ponto_reposicao` and
`disponivel_mercado` are plain integers there. -/
structure Linha where
  qtd_atual : Int
  ponto_reposicao : Int
  disponivel_mercado : Int
deriving DecidableEq

/-- Embedding of `classificar_linha` (lines 303-312): the five classification
rules evaluated in order, first match wins. -/
def classificar_linha (row : Linha) : String :=
  if row.qtd_atual ≤ 0 ∧ row.disponivel_mercado = 0 then
    "🔴 Sem estoque e sem mercado"
  else if row.qtd_atual ≤ row.ponto_reposicao ∧ row.disponivel_mercado = 0 then
    "🟥 Crítico (mercado ruim)"
  else if row.qtd_atual ≤ 0 then
    "🟠 Sem estoque"
  else if row.qtd_atual ≤ row.ponto_reposicao then
    "🟡 Baixo"
  else
    "🟢 OK"

/-- Helper for `pyIn`: substring search over character lists. -/
def containsSeq (needle : List Char) : List Char → Bool
  | [] => needle.isEmpty
  | c :: t => needle.isPrefixOf (c :: t) || containsSeq needle t

/-- Embedding of the Python substring test `needle in hay` used by
`prioridade`. -/
def pyIn (needle hay : String) : Bool :=
  containsSeq needle.data hay.data

/-- Embedding of `prioridade` (lines 315-325).  The source reads the rendered
`situacao` string of the row and tests substrings of it; the argument `txt`
is that string. -/
def prioridade (txt : String) : Int :=
  if pyIn "Sem estoque e sem mercado" txt then 4
  else if pyIn "Crítico (mercado ruim)" txt then 3
  else if pyIn "Sem estoque" txt then 2
  else if pyIn "Baixo" txt then 1
  else 0

/-- Embedding of `calc_consumo_diario` (lines 294-297).  The Python guard
`if ponto and ponto > 0` is the conjunction of truthiness (`ponto ≠ 0`) and
the comparison. -/
def calc_consumo_diario (ponto : Int) : Option Rat :=
  if ponto ≠ 0 ∧ ponto > 0 then some ((ponto : Rat) / 35) else none

/-- Embedding of `dias_estoque` (lines 328-332): `c` is the row's
`consumo_diario_calc` (`None` or a float), and the guard `if c and c > 0`
again combines truthiness (`c ≠ 0`, with `None` falsy) and the comparison. -/
def dias_estoque (qtd : Int) (c : Option Rat) : Option Rat :=
  match c with
  | none => none
  | some c => if c ≠ 0 ∧ c > 0 then some ((qtd : Rat) / c) else none

/-- Embedding of Python `int()` on a float: truncation toward zero. -/
def pyInt (d : Rat) : Int :=
  if 0 ≤ d then ⌊d⌋ else ⌈d⌉

/-- Embedding of `data_ruptura` (lines 335-338): when the row's
`dias_estoque` is truthy (present and nonzero) and positive, return
`date.today() + timedelta(days=int(dias))`, else `None`.  `today` is the
day number of `date.today()`. -/
def data_ruptura (dias : Option Rat) (today : Int) : Option Int :=
  match dias with
  | none => none
  | some d => if d ≠ 0 ∧ d > 0 then some (today + pyInt d) else none

/-! Evaluation lemmas for `prioridade` on each of the five labels produced by
`classificar_linha`. -/

lemma prioridade_sem_estoque_sem_mercado :
    prioridade "🔴 Sem estoque e sem mercado" = 4 := by decide

lemma prioridade_critico : prioridade "🟥 Crítico (mercado ruim)" = 3 := by decide

lemma prioridade_sem_estoque : prioridade "🟠 Sem estoque" = 2 := by decide

lemma prioridade_baixo : prioridade "🟡 Baixo" = 1 := by decide

lemma prioridade_ok : prioridade "🟢 OK" = 0 := by decide

/-- C1: situation and priority are produced by the five rules in strict
first-match order: (1) quantity ≤ 0 with market unavailable gives
"no stock, no market" / 4 regardless of the reorder point; (2) otherwise
quantity ≤ reorder point with market unavailable gives
"critical, poor market" / 3; (3) otherwise quantity ≤ 0 gives "no stock" / 2;
(4) otherwise quantity ≤ reorder point gives "low" / 1; (5) otherwise
"ok" / 0; in particular any data-model item (reorder point ≥ 0) with
quantity above the reorder point and the market available is "ok" / 0. -/
theorem c1_first_match (q p d : Int) :
    ((q ≤ 0 ∧ d = 0) →
      classificar_linha ⟨q, p, d⟩ = "🔴 Sem estoque e sem mercado" ∧
      prioridade (classificar_linha ⟨q, p, d⟩) = 4) ∧
    (¬(q ≤ 0 ∧ d = 0) → (q ≤ p ∧ d = 0) →
      classificar_linha ⟨q, p, d⟩ = "🟥 Crítico (mercado ruim)" ∧
      prioridade (classificar_linha ⟨q, p, d⟩) = 3) ∧
    (¬(q ≤ 0 ∧ d = 0) → ¬(q ≤ p ∧ d = 0) → q ≤ 0 →
      classificar_linha ⟨q, p, d⟩ = "🟠 Sem estoque" ∧
      prioridade (classificar_linha ⟨q, p, d⟩) = 2) ∧
    (¬(q ≤ 0 ∧ d = 0) → ¬(q ≤ p ∧ d = 0) → ¬(q ≤ 0) → q ≤ p →
      classificar_linha ⟨q, p, d⟩ = "🟡 Baixo" ∧
      prioridade (classificar_linha ⟨q, p, d⟩) = 1) ∧
    (¬(q ≤ 0 ∧ d = 0) → ¬(q ≤ p ∧ d = 0) → ¬(q ≤ 0) → ¬(q ≤ p) →
      classificar_linha ⟨q, p, d⟩ = "🟢 OK" ∧
      prioridade (classificar_linha ⟨q, p, d⟩) = 0) ∧
    (0 ≤ p → p < q → d ≠ 0 →
      classificar_linha ⟨q, p, d⟩ = "🟢 OK" ∧
      prioridade (classificar_linha ⟨q, p, d⟩) = 0) := by
  refine ⟨?_, ?_, ?_, ?_, ?_, ?_⟩ <;> intro h1
  · simp only [classificar_linha, if_pos h1]
    exact ⟨trivial, prioridade_sem_estoque_sem_mercado⟩
  · intro h2
    simp only [classificar_linha, if_neg h1, if_pos h2]
    exact ⟨trivial, prioridade_critico⟩
  · intro h2 h3
    simp only [classificar_linha, if_neg h1, if_neg h2, if_pos h3]
    exact ⟨trivial, prioridade_sem_estoque⟩
  · intro h2 h3 h4
    simp only [classificar_linha, if_neg h1, if_neg h2, if_neg h3, if_pos h4]
    exact ⟨trivial, prioridade_baixo⟩
  · intro h2 h3 h4
    simp only [classificar_linha, if_neg h1, if_neg h2, if_neg h3, if_neg h4]
    exact ⟨trivial, prioridade_ok⟩
  · intro hlt hd
    have hq0 : ¬(q ≤ 0) := by omega
    have hqp : ¬(q ≤ p) := by omega
    have hA : ¬(q ≤ 0 ∧ d = 0) := fun h => hq0 h.1
    have hB : ¬(q ≤ p ∧ d = 0) := fun h => hqp h.1
    simp only [classificar_linha, if_neg hA, if_neg hB, if_neg hq0, if_neg hqp]
    exact ⟨trivial, prioridade_ok⟩

/-- Witness for C1 at concrete inputs: an item with quantity 7 above reorder
point 3 and the market available is classified "ok" with priority 0, and an
item with quantity 0 and no market is "no stock, no market" with priority 4
even though its reorder point is negative. -/
theorem c1_first_match_witness :
    (classificar_linha ⟨7, 3, 1⟩ = "🟢 OK" ∧
      prioridade (classificar_linha ⟨7, 3, 1⟩) = 0) ∧
    (classificar_linha ⟨0, -9, 0⟩ = "🔴 Sem estoque e sem mercado" ∧
      prioridade (classificar_linha ⟨0, -9, 0⟩) = 4) :=
  ⟨(c1_first_match 7 3 1).2.2.2.2.2 (by decide) (by decide) (by decide),
   (c1_first_match 0 (-9) 0).1 (by decide)⟩

/-- C4: the estimated daily consumption is absent exactly when the reorder
point is not positive, and otherwise equals `ponto / 35.0`. -/
theorem c4_consumo_diario (p : Int) :
    (calc_consumo_diario p = none ↔ p ≤ 0) ∧
    (0 < p → calc_consumo_diario p = some ((p : Rat) / 35)) := by
  constructor
  · constructor
    · intro h
      by_contra hle
      have hp : 0 < p := by omega
      simp [calc_consumo_diario, hp, hp.ne'] at h
    · intro h
      have : ¬(p ≠ 0 ∧ p > 0) := by omega
      simp [calc_consumo_diario, this]
  · intro hp
    simp [calc_consumo_diario, hp, hp.ne']

/-- Witness for C4 at the reorder point 350 of the sample data: the
consumption estimate is 10 units per day, and at 0 it is absent. -/
theorem c4_consumo_diario_witness :
    calc_consumo_diario 350 = some 10 ∧ calc_consumo_diario 0 = none := by
  constructor
  · have h := (c4_consumo_diario 350).2 (by decide)
    rw [h]
    norm_num
  · exact (c4_consumo_diario 0).1.mpr (by decide)

/-- C5: the projected stockout date is `today + floor(days)` exactly when the
estimated days of stock are present and strictly positive and is absent
otherwise; the sample item with quantity 5 and reorder point 350 has 0.5
days of stock and a projected stockout of today itself, while zero days of
stock yield no projected date. -/
theorem c5_data_ruptura (today : Int) :
    (∀ d : Rat, 0 < d → data_ruptura (some d) today = some (today + ⌊d⌋)) ∧
    (∀ d : Rat, d ≤ 0 → data_ruptura (some d) today = none) ∧
    data_ruptura none today = none ∧
    dias_estoque 5 (calc_consumo_diario 350) = some (1 / 2) ∧
    data_ruptura (dias_estoque 5 (calc_consumo_diario 350)) today = some today ∧
    data_ruptura (some 0) today = none := by
  have hpos : ∀ d : Rat, 0 < d → data_ruptura (some d) today = some (today + ⌊d⌋) := by
    intro d hd
    simp [data_ruptura, pyInt, hd, hd.ne', hd.le]
  have hdias : dias_estoque 5 (calc_consumo_diario 350) = some (1 / 2) := by
    have h350 : calc_consumo_diario 350 = some 10 := by
      have h := (c4_consumo_diario 350).2 (by decide)
      rw [h]; norm_num
    rw [h350]
    simp [dias_estoque]
    norm_num
  refine ⟨hpos, ?_, rfl, hdias, ?_, ?_⟩
  · intro d hd
    rcases eq_or_lt_of_le hd with h | h
    · simp [data_ruptura, ← h]
    · simp [data_ruptura, h.ne, not_lt.mpr hd]
  · rw [hdias, hpos (1 / 2) (by norm_num)]
    norm_num
  · simp [data_ruptura]

/-- Witness for C5 at a concrete positive number of days: 2.5 days of stock
from day 100 project to day 102. -/
theorem c5_data_ruptura_witness :
    data_ruptura (some (5 / 2)) 100 = some 102 := by
  have h := (c5_data_ruptura 100).1 (5 / 2) (by norm_num)
  rw [h]
  norm_num

/-! ## Store Adapter and Reconciliation Engine (lines 51-212, 263-291)

The SQLite store is modelled as a list of `Produto` rows.  A TEXT date cell
is one of: NULL, an ISO-formatted date string (constructor `iso`, holding
the day number it denotes), a string that `pd.to_datetime` parses but whose
rendering differs from `isoformat()` (constructor `odd`), or a string that
fails date parsing (constructor `raw`). -/

/-- Value of a TEXT date column in the store. -/
inductive DateCell where
  | null : DateCell
  | iso (d : Int) : DateCell
  | odd (d : Int) (s : String) : DateCell
  | raw (s : String) : DateCell
deriving DecidableEq

/-- One persisted row of the `produtos` table (schema of lines 92-109).
NULL-able columns are `Option`; `consumo_diario` is REAL, modelled as
`Option Rat`. -/
structure Produto where
  id : Int
  produto : Option String
  sku : Option String
  categoria : Option String
  qtd_atual : Option Int
  ponto_reposicao : Option Int
  status_reposicao : Option String
  disponivel_mercado : Option Int
  fornecedor : Option String
  data_ultima_compra : DateCell
  previsao_entrega : DateCell
  consumo_diario : Option Rat
deriving DecidableEq

/-- Value of the `id` cell of an edited row: missing (None/NaN), an integer,
or a value on which `int()` raises (`bad`). -/
inductive IdCell where
  | na : IdCell
  | iv (i : Int) : IdCell
  | bad (s : String) : IdCell
deriving DecidableEq

/-- One row of the edited DataFrame handed to `save_changes`.  Date cells
come from the editor's DateColumn as a date or None; numeric cells are an
integer or NaN (`none`). -/
structure EditedRow where
  id : IdCell
  produto : Option String
  sku : Option String
  categoria : Option String
  qtd_atual : Option Int
  ponto_reposicao : Option Int
  status_reposicao : Option String
  disponivel_mercado : Option Int
  fornecedor : Option String
  data_ultima_compra : Option Int
  previsao_entrega : Option Int
  consumo_diario : Option Rat
deriving DecidableEq

/-- Embedding of `df_editado["id"].notna()` on one cell. -/
def notna_id : IdCell → Bool
  | IdCell.na => false
  | _ => true

/-- Embedding of the `int(row["id"])` attempt of lines 142-145: `none` when
`int()` raises TypeError/ValueError. -/
def int_of_id : IdCell → Option Int
  | IdCell.na => none
  | IdCell.iv i => some i
  | IdCell.bad _ => none

/-- Embedding of `_norm_date` (lines 131-137) on an editor date cell: None
becomes NULL, a date is rendered as its ISO string. -/
def norm_date : Option Int → DateCell
  | none => DateCell.null
  | some d => DateCell.iso d

/-- Embedding of `row.get("status_reposicao") or "nao_solicitado"` (lines
172 and 202): None and the empty string are falsy in Python. -/
def status_or_default : Option String → String
  | none => "nao_solicitado"
  | some s => if s = "" then "nao_solicitado" else s

/-- Row content written by `save_changes` for a submitted row, shared by the
UPDATE of lines 150-180 and the INSERT of lines 188-209 (the two parameter
tuples of the source are identical): quantities pass through (`NULL` when
NaN), availability defaults to 1 when NaN, the status string is defaulted
when falsy, dates are normalized, and `consumo_diario` is written as NULL
(lines 177 and 207). -/
def written_row (idv : Int) (r : EditedRow) : Produto where
  id := idv
  produto := r.produto
  sku := r.sku
  categoria := r.categoria
  qtd_atual := r.qtd_atual
  ponto_reposicao := r.ponto_reposicao
  status_reposicao := some (status_or_default r.status_reposicao)
  disponivel_mercado := some (r.disponivel_mercado.getD 1)
  fornecedor := r.fornecedor
  data_ultima_compra := norm_date r.data_ultima_compra
  previsao_entrega := norm_date r.previsao_entrega
  consumo_diario := none

/-- Effect on the store of `UPDATE produtos SET ... WHERE id = ?`: every row
whose id matches is overwritten with the submitted content. -/
def apply_update (st : List Produto) (idv : Int) (r : EditedRow) : List Produto :=
  st.map fun p => if p.id = idv then written_row idv r else p

/-- Processing of one row of `existentes` (lines 141-180): coerce the id,
silently skipping the row when `int()` raises, otherwise issue the UPDATE. -/
def do_update (st : List Produto) (r : EditedRow) : List Produto :=
  match int_of_id r.id with
  | none => st
  | some idv => apply_update st idv r

/-- Fresh AUTOINCREMENT id assigned by an INSERT: strictly greater than every
id in the store (SQLite assigns max rowid + 1 on an AUTOINCREMENT table). -/
def next_id (st : List Produto) : Int :=
  (st.foldl (fun m p => max m p.id) 0) + 1

/-- Embedding of `save_changes` (lines 122-212): rows whose id is present
(`notna`) are processed as UPDATEs in order, then rows without an id are
INSERTed in order with fresh ids. -/
def save_changes (st : List Produto) (df : List EditedRow) : List Produto :=
  let existentes := df.filter fun r => notna_id r.id
  let st1 := existentes.foldl do_update st
  let novos := df.filter fun r => !notna_id r.id
  novos.foldl (fun st2 r => st2 ++ [written_row (next_id st2) r]) st1

/-! ## Load-side normalization (lines 263-291)

`load_data` (lines 114-119) returns the store rows unchanged; the
normalization block then coerces the columns before the rows reach the
editor and `save_changes`. -/

/-- Value a stored TEXT date cell takes after
`pd.to_datetime(..., errors="coerce").dt.date` (lines 286-291): parseable
strings become dates, unparseable strings and NULL become NaT/None. -/
def date_to_editor : DateCell → Option Int
  | DateCell.null => none
  | DateCell.iso d => some d
  | DateCell.odd d _ => some d
  | DateCell.raw _ => none

/-- Embedding of the per-row effect of the normalization block
(lines 280-291) on a loaded store row: `fillna(0)` on the quantities,
`fillna(1)` on availability, `fillna("nao_solicitado")` on the status, date
parsing on the date columns; text columns and `consumo_diario` pass
through, and the row keeps its id. -/
def normalize_row (p : Produto) : EditedRow where
  id := IdCell.iv p.id
  produto := p.produto
  sku := p.sku
  categoria := p.categoria
  qtd_atual := some (p.qtd_atual.getD 0)
  ponto_reposicao := some (p.ponto_reposicao.getD 0)
  status_reposicao := some (p.status_reposicao.getD "nao_solicitado")
  disponivel_mercado := some (p.disponivel_mercado.getD 1)
  fornecedor := p.fornecedor
  data_ultima_compra := date_to_editor p.data_ultima_compra
  previsao_entrega := date_to_editor p.previsao_entrega
  consumo_diario := p.consumo_diario

/-! ## Schema Guard (init_db, lines 55-111) -/

/-- The `produtos` table: its column names and its rows.  The guard only
inspects the column list; the row payload is never read by `init_db`, so
legacy rows are carried with the same row type. -/
structure Table where
  cols : List String
  rows : List Produto
deriving DecidableEq

/-- The SQLite database file: it may or may not contain a `produtos` table
(`PRAGMA table_info` returns no rows for a missing table). -/
structure DBFile where
  produtos : Option Table
deriving DecidableEq

/-- The required column list of lines 57-70. -/
def required_cols : List String :=
  ["id", "produto", "sku", "categoria", "qtd_atual", "ponto_reposicao",
   "status_reposicao", "disponivel_mercado", "fornecedor",
   "data_ultima_compra", "previsao_entrega", "consumo_diario"]

/-- A freshly created `produtos` table with the full schema of the
CREATE TABLE statement (lines 92-109) and no rows. -/
def fresh_table : Table where
  cols := required_cols
  rows := []

/-- Embedding of `init_db` (lines 55-111).  The state is `none` when the
database file does not exist.  `inspect_fails` models the `except` branch of
lines 85-87: any error raised while inspecting the schema (corrupt file,
lock error) deletes the file when it exists.  Otherwise, if the table has
columns and any required column is missing, the file is deleted
(lines 83-84).  Finally `CREATE TABLE IF NOT EXISTS` installs the full
schema when no table is present. -/
def init_db (store : Option DBFile) (inspect_fails : Bool) : Option DBFile :=
  let store1 : Option DBFile :=
    match store with
    | none => none
    | some db =>
      if inspect_fails then none
      else
        let existing_cols := match db.produtos with
          | some t => t.cols
          | none => []
        if existing_cols ≠ [] ∧ required_cols.any (fun c => !existing_cols.contains c)
        then none
        else some db
  match store1 with
  | none => some ⟨some fresh_table⟩
  | some db =>
    match db.produtos with
    | none => some ⟨some fresh_table⟩
    | some t => some ⟨some t⟩

/-! ## C2: numeric coercion on load and save -/

/-- A stored row carrying a negative quantity, as a user can submit through
the number column of the editor (no lower bound is configured). -/
def prodNegQtd : Produto where
  id := 7
  produto := some "Exemplo"
  sku := some "SKU007"
  categoria := none
  qtd_atual := some (-5)
  ponto_reposicao := some 0
  status_reposicao := some "nao_solicitado"
  disponivel_mercado := some 1
  fornecedor := none
  data_ultima_compra := DateCell.null
  previsao_entrega := DateCell.null
  consumo_diario := none

/-- Counterexample to C2: a stored quantity of -5 is materialized by the
load-side normalization as -5, and saving the row writes -5 back, so loads
and saves do yield negative values. -/
theorem c2_negative_counterexample :
    (normalize_row prodNegQtd).qtd_atual = some (-5) ∧
    (written_row 7 (normalize_row prodNegQtd)).qtd_atual = some (-5) ∧
    (-5 : Int) < 0 := by decide

/-- C2 (amended): loads and saves never reject a row; an absent quantity or
threshold is materialized as 0 by the load and written as NULL by the save,
while present values, including negative ones, pass through unchanged, so
the materialized values are non-negative exactly when the stored values are
absent or non-negative. -/
theorem c2_numeric_coercion (p : Produto) (r : EditedRow) (idv : Int) :
    (p.qtd_atual = none → (normalize_row p).qtd_atual = some 0) ∧
    (p.ponto_reposicao = none → (normalize_row p).ponto_reposicao = some 0) ∧
    (∀ v, p.qtd_atual = some v → (normalize_row p).qtd_atual = some v) ∧
    (∀ v, p.ponto_reposicao = some v → (normalize_row p).ponto_reposicao = some v) ∧
    (written_row idv r).qtd_atual = r.qtd_atual ∧
    (written_row idv r).ponto_reposicao = r.ponto_reposicao ∧
    (0 ≤ p.qtd_atual.getD 0 → 0 ≤ p.ponto_reposicao.getD 0 →
      ∃ q pt : Int, (normalize_row p).qtd_atual = some q ∧
        (normalize_row p).ponto_reposicao = some pt ∧ 0 ≤ q ∧ 0 ≤ pt) := by
  refine ⟨?_, ?_, ?_, ?_, rfl, rfl, ?_⟩
  · intro h; simp [normalize_row, h]
  · intro h; simp [normalize_row, h]
  · intro v h; simp [normalize_row, h]
  · intro v h; simp [normalize_row, h]
  · intro hq hp
    exact ⟨p.qtd_atual.getD 0, p.ponto_reposicao.getD 0, rfl, rfl, hq, hp⟩

/-- Witness for C2 (amended) on a row with both quantities absent: the load
materializes both as 0. -/
theorem c2_numeric_coercion_witness :
    (normalize_row ⟨3, none, none, none, none, none, none, none, none,
      DateCell.null, DateCell.null, none⟩).qtd_atual = some 0 ∧
    (normalize_row ⟨3, none, none, none, none, none, none, none, none,
      DateCell.null, DateCell.null, none⟩).ponto_reposicao = some 0 :=
  ⟨(c2_numeric_coercion ⟨3, none, none, none, none, none, none, none, none,
      DateCell.null, DateCell.null, none⟩ ⟨IdCell.na, none, none, none, none,
      none, none, none, none, none, none, none⟩ 0).1 rfl,
   (c2_numeric_coercion ⟨3, none, none, none, none, none, none, none, none,
      DateCell.null, DateCell.null, none⟩ ⟨IdCell.na, none, none, none, none,
      none, none, none, none, none, none, none⟩ 0).2.1 rfl⟩

/-! ## C6: the schema guard -/

/-- C6: when the persisted table exists with a nonempty column list missing
at least one required column, or when schema inspection raises, `init_db`
deletes the database file and recreates the `produtos` table with the full
required column set and zero rows; when no file exists the table is created
directly with the full schema. -/
theorem c6_schema_guard :
    (∀ t : Table, t.cols ≠ [] → (∃ c, c ∈ required_cols ∧ c ∉ t.cols) →
      init_db (some ⟨some t⟩) false = some ⟨some fresh_table⟩) ∧
    (∀ db : DBFile, init_db (some db) true = some ⟨some fresh_table⟩) ∧
    (∀ b : Bool, init_db none b = some ⟨some fresh_table⟩) ∧
    fresh_table.cols = required_cols ∧ fresh_table.rows = [] := by
  refine ⟨?_, ?_, ?_, rfl, rfl⟩
  · intro t ht ⟨c, hc, hnc⟩
    have hcond : ∃ x ∈ required_cols, x ∉ t.cols := ⟨c, hc, hnc⟩
    simp [init_db, ht, hcond]
  · intro db
    simp [init_db]
  · intro b
    simp [init_db]

/-- A legacy table whose column list is missing `consumo_diario` and which
still holds one row. -/
def legacyTable : Table where
  cols := ["id", "produto", "sku", "categoria", "qtd_atual", "ponto_reposicao",
    "status_reposicao", "disponivel_mercado", "fornecedor",
    "data_ultima_compra", "previsao_entrega"]
  rows := [⟨1, some "Antigo", none, none, some 2, some 3, none, none, none,
    DateCell.null, DateCell.null, none⟩]

/-- Witness for C6: running the guard on the legacy table (which holds one
row) leaves the fresh, fully-columned, empty table. -/
theorem c6_schema_guard_witness :
    init_db (some ⟨some legacyTable⟩) false = some ⟨some fresh_table⟩ ∧
    legacyTable.rows.length = 1 :=
  ⟨c6_schema_guard.1 legacyTable (by decide)
    ⟨"consumo_diario", by decide, by decide⟩, rfl⟩

/-! ## C7: silent skip of update rows with a non-coercible id -/

/-- C7: a row whose id cell is present but on which `int()` raises is skipped
silently by `save_changes`: the outcome is exactly the outcome of the same
call without that row, wherever the row sits in the batch, so no write is
issued for it, no error is raised and the remaining rows are processed. -/
theorem c7_bad_id_skipped (st : List Produto) (xs ys : List EditedRow)
    (r : EditedRow) (s : String) (hr : r.id = IdCell.bad s) :
    save_changes st (xs ++ r :: ys) = save_changes st (xs ++ ys) := by
  have hnot : notna_id r.id = true := by simp [hr, notna_id]
  have hco : int_of_id r.id = none := by simp [hr, int_of_id]
  unfold save_changes
  simp only [List.filter_append, List.filter_cons, hnot, Bool.not_true,
    Bool.false_eq_true, if_false, if_true, List.foldl_append, List.foldl_cons]
  have hdo : ∀ st2 : List Produto, do_update st2 r = st2 := by
    intro st2; simp [do_update, hco]
  rw [hdo]

/-- An update row with a non-coercible id cell. -/
def rowBadId : EditedRow where
  id := IdCell.bad "abc"
  produto := some "Fantasma"
  sku := none
  categoria := none
  qtd_atual := some 9
  ponto_reposicao := some 9
  status_reposicao := none
  disponivel_mercado := none
  fornecedor := none
  data_ultima_compra := none
  previsao_entrega := none
  consumo_diario := none

/-- A well-formed update row targeting id 1. -/
def rowGoodUpd : EditedRow where
  id := IdCell.iv 1
  produto := some "Bom"
  sku := some "SKU001"
  categoria := none
  qtd_atual := some 4
  ponto_reposicao := some 2
  status_reposicao := some "solicitado"
  disponivel_mercado := some 1
  fornecedor := none
  data_ultima_compra := none
  previsao_entrega := none
  consumo_diario := none

/-- A stored row with id 1. -/
def prodId1 : Produto where
  id := 1
  produto := some "Velho"
  sku := some "SKU001"
  categoria := none
  qtd_atual := some 8
  ponto_reposicao := some 2
  status_reposicao := some "nao_solicitado"
  disponivel_mercado := some 1
  fornecedor := none
  data_ultima_compra := DateCell.null
  previsao_entrega := DateCell.null
  consumo_diario := none

/-- Witness for C7: with a one-row store, a batch holding the bad-id row
followed by a good update behaves exactly like the batch with only the good
update. -/
theorem c7_bad_id_skipped_witness :
    save_changes [prodId1] [rowBadId, rowGoodUpd] =
      save_changes [prodId1] [rowGoodUpd] :=
  c7_bad_id_skipped [prodId1] [] [rowGoodUpd] rowBadId "abc" rfl

/-! ## C8: saves never delete; untouched rows survive unchanged -/

lemma mem_foldl_do_update (p : Produto) :
    ∀ (l : List EditedRow) (st : List Produto), p ∈ st →
      (∀ r ∈ l, int_of_id r.id ≠ some p.id) → p ∈ l.foldl do_update st := by
  intro l
  induction l with
  | nil => intro st hp _; exact hp
  | cons r t ih =>
    intro st hp hno
    have hstep : p ∈ do_update st r := by
      unfold do_update
      cases hco : int_of_id r.id with
      | none => exact hp
      | some idv =>
        have hne : p.id ≠ idv := by
          intro h
          exact hno r (List.mem_cons_self r t) (by rw [hco, h])
        unfold apply_update
        exact List.mem_map.mpr ⟨p, hp, by simp [hne]⟩
    exact ih (do_update st r) hstep (fun r' hr' => hno r' (List.mem_cons_of_mem r hr'))

lemma mem_foldl_inserts (p : Produto) :
    ∀ (l : List EditedRow) (st : List Produto), p ∈ st →
      p ∈ l.foldl (fun st2 r => st2 ++ [written_row (next_id st2) r]) st := by
  intro l
  induction l with
  | nil => intro st hp; exact hp
  | cons r t ih =>
    intro st hp
    exact ih _ (List.mem_append_left _ hp)

lemma length_foldl_do_update :
    ∀ (l : List EditedRow) (st : List Produto),
      (l.foldl do_update st).length = st.length := by
  intro l
  induction l with
  | nil => intro st; rfl
  | cons r t ih =>
    intro st
    rw [List.foldl_cons, ih]
    unfold do_update
    cases int_of_id r.id with
    | none => rfl
    | some idv => simp [apply_update]

lemma length_foldl_inserts :
    ∀ (l : List EditedRow) (st : List Produto),
      st.length ≤ (l.foldl (fun st2 r => st2 ++ [written_row (next_id st2) r]) st).length := by
  intro l
  induction l with
  | nil => intro st; exact Nat.le_refl _
  | cons r t ih =>
    intro st
    calc st.length ≤ (st ++ [written_row (next_id st) r]).length := by
          simp
      _ ≤ _ := ih _

/-- C8: a stored row whose id is targeted by no submitted row survives a save
completely unchanged, and a save never shrinks the store (it issues only
id-keyed updates and inserts, no deletes); in particular deleting a row in
the editor and saving leaves that row's persisted values intact. -/
theorem c8_no_deletes (st : List Produto) (df : List EditedRow) (p : Produto)
    (hp : p ∈ st) (hno : ∀ r ∈ df, int_of_id r.id ≠ some p.id) :
    p ∈ save_changes st df ∧ st.length ≤ (save_changes st df).length := by
  unfold save_changes
  constructor
  · refine mem_foldl_inserts p _ _ (mem_foldl_do_update p _ st hp ?_)
    intro r hr
    exact hno r (List.mem_of_mem_filter hr)
  · calc st.length = ((df.filter fun r => notna_id r.id).foldl do_update st).length :=
          (length_foldl_do_update _ st).symm
      _ ≤ _ := length_foldl_inserts _ _

/-- An insert row (no id). -/
def rowNew : EditedRow where
  id := IdCell.na
  produto := some "Novo"
  sku := some "SKU999"
  categoria := none
  qtd_atual := some 1
  ponto_reposicao := some 1
  status_reposicao := none
  disponivel_mercado := none
  fornecedor := none
  data_ultima_compra := none
  previsao_entrega := none
  consumo_diario := none

/-- A stored row with id 2 that the edited snapshot does not mention. -/
def prodId2 : Produto where
  id := 2
  produto := some "Intocado"
  sku := some "SKU002"
  categoria := some "Insumo"
  qtd_atual := some 6
  ponto_reposicao := some 3
  status_reposicao := some "solicitado"
  disponivel_mercado := some 0
  fornecedor := some "Fornecedor B"
  data_ultima_compra := DateCell.iso 19700
  previsao_entrega := DateCell.null
  consumo_diario := none

/-- An update row targeting id 77, not id 2. -/
def rowUpd77 : EditedRow where
  id := IdCell.iv 77
  produto := some "Outro"
  sku := none
  categoria := none
  qtd_atual := some 5
  ponto_reposicao := some 5
  status_reposicao := none
  disponivel_mercado := none
  fornecedor := none
  data_ultima_compra := none
  previsao_entrega := none
  consumo_diario := none

/-- Witness for C8: a snapshot holding only a new row and an update of a
different id leaves the stored row with id 2 present, field for field, and
does not shrink the store. -/
theorem c8_no_deletes_witness :
    prodId2 ∈ save_changes [prodId2] [rowNew, rowUpd77] ∧
    (1 : Nat) ≤ (save_changes [prodId2] [rowNew, rowUpd77]).length := by
  have h := c8_no_deletes [prodId2] [rowNew, rowUpd77] prodId2
    (by decide) (by decide)
  exact ⟨h.1, h.2⟩

/-! ## C10: consumo_diario is written as NULL on every save -/

/-- C10: every row content written by `save_changes`, for updates and inserts
alike, carries NULL in `consumo_diario` regardless of the submitted value,
and after a save whose batch updates a stored row, every store row with that
id has NULL `consumo_diario` — a previously stored estimate is lost on the
first update. -/
theorem c10_consumo_always_null (idv : Int) (r : EditedRow)
    (st : List Produto) (p : Produto) (hp : p ∈ st)
    (hid : int_of_id r.id = some p.id) :
    (written_row idv r).consumo_diario = none ∧
    ∀ q ∈ save_changes st [r], q.id = p.id → q.consumo_diario = none := by
  refine ⟨rfl, ?_⟩
  intro q hq hqid
  have hnot : notna_id r.id = true := by
    cases h : r.id <;> simp [h, int_of_id, notna_id] at hid ⊢
  unfold save_changes at hq
  simp only [List.filter_cons, List.filter_nil, hnot, Bool.not_true,
    Bool.false_eq_true, if_false, if_true, List.foldl_cons, List.foldl_nil] at hq
  unfold do_update at hq
  rw [hid] at hq
  unfold apply_update at hq
  rcases List.mem_map.mp hq with ⟨p', _, hmap⟩
  by_cases hcase : p'.id = p.id
  · rw [if_pos hcase] at hmap
    rw [← hmap]
    rfl
  · rw [if_neg hcase] at hmap
    rw [← hmap] at hqid
    exact absurd hqid hcase

/-- A stored row with id 1 and a non-null stored `consumo_diario`. -/
def prodConsumo : Produto where
  id := 1
  produto := some "Com consumo"
  sku := some "SKU010"
  categoria := none
  qtd_atual := some 10
  ponto_reposicao := some 70
  status_reposicao := some "nao_solicitado"
  disponivel_mercado := some 1
  fornecedor := none
  data_ultima_compra := DateCell.null
  previsao_entrega := DateCell.null
  consumo_diario := some 5

/-- An update row for id 1 that itself carries a non-null consumo value. -/
def rowUpdConsumo : EditedRow where
  id := IdCell.iv 1
  produto := some "Com consumo"
  sku := some "SKU010"
  categoria := none
  qtd_atual := some 10
  ponto_reposicao := some 70
  status_reposicao := some "nao_solicitado"
  disponivel_mercado := some 1
  fornecedor := none
  data_ultima_compra := none
  previsao_entrega := none
  consumo_diario := some 5

/-- Witness for C10: the stored estimate 5.0 of the id-1 row is overwritten
with NULL by an update that even resubmits the value 5.0. -/
theorem c10_consumo_always_null_witness :
    prodConsumo.consumo_diario = some 5 ∧
    rowUpdConsumo.consumo_diario = some 5 ∧
    written_row 1 rowUpdConsumo ∈ save_changes [prodConsumo] [rowUpdConsumo] ∧
    (written_row 1 rowUpdConsumo).consumo_diario = none := by
  refine ⟨rfl, rfl, by decide, ?_⟩
  exact ((c10_consumo_always_null 1 rowUpdConsumo [prodConsumo] prodConsumo
    (by decide) (by decide)).2) (written_row 1 rowUpdConsumo) (by decide) (by decide)

/-! ## C9: load/save round trip -/

/-- A stored date cell that survives the load/save cycle textually: NULL, or
an ISO-rendered date (an `odd` parseable string is re-rendered as ISO and a
`raw` string is nulled by the load-side parse). -/
def date_canon : DateCell → Bool
  | DateCell.null => true
  | DateCell.iso _ => true
  | DateCell.odd _ _ => false
  | DateCell.raw _ => false

/-- A stored row already in the normal form the pipeline writes: quantities,
availability and a nonempty status present, canonical dates, and NULL
`consumo_diario`. -/
def canonical (p : Produto) : Bool :=
  p.qtd_atual.isSome && p.ponto_reposicao.isSome &&
  p.disponivel_mercado.isSome && !(p.status_reposicao.getD "" == "") &&
  date_canon p.data_ultima_compra && date_canon p.previsao_entrega &&
  p.consumo_diario.isNone

lemma written_row_normalize_eq (p : Produto) (h : canonical p = true) :
    written_row p.id (normalize_row p) = p := by
  obtain ⟨i, pr, sk, ca, q, po, stt, disp, forn, d1, d2, cons⟩ := p
  simp only [canonical, Bool.and_eq_true] at h
  obtain ⟨⟨⟨⟨⟨⟨hq, hpo⟩, hdisp⟩, hst⟩, hd1⟩, hd2⟩, hcons⟩ := h
  cases q with
  | none => simp at hq
  | some qv =>
  cases po with
  | none => simp at hpo
  | some pov =>
  cases disp with
  | none => simp at hdisp
  | some dv =>
  cases cons with
  | some cv => simp at hcons
  | none =>
  cases stt with
  | none => simp at hst
  | some sv =>
  have hsv : ¬(sv = "") := by
    simpa using hst
  cases d1 with
  | odd _ _ => simp [date_canon] at hd1
  | raw _ => simp [date_canon] at hd1
  | null =>
    cases d2 with
    | odd _ _ => simp [date_canon] at hd2
    | raw _ => simp [date_canon] at hd2
    | null =>
      simp [written_row, normalize_row, norm_date, date_to_editor,
        status_or_default, hsv]
    | iso _ =>
      simp [written_row, normalize_row, norm_date, date_to_editor,
        status_or_default, hsv]
  | iso _ =>
    cases d2 with
    | odd _ _ => simp [date_canon] at hd2
    | raw _ => simp [date_canon] at hd2
    | null =>
      simp [written_row, normalize_row, norm_date, date_to_editor,
        status_or_default, hsv]
    | iso _ =>
      simp [written_row, normalize_row, norm_date, date_to_editor,
        status_or_default, hsv]

lemma map_update_self (p : Produto) :
    ∀ st : List Produto, p ∈ st → (st.map Produto.id).Nodup →
      (st.map fun q => if q.id = p.id then p else q) = st := by
  intro st
  induction st with
  | nil => intro h _; cases h
  | cons q t ih =>
    intro hp hnd
    rw [List.map_cons] at hnd
    rcases List.mem_cons.mp hp with rfl | hpt
    · rw [List.map_cons, if_pos rfl]
      have htail : (t.map fun q => if q.id = p.id then p else q) = t.map id := by
        apply List.map_congr_left
        intro x hx
        have hxid : x.id ≠ p.id := by
          intro hcontra
          exact (List.nodup_cons.mp hnd).1
            (hcontra ▸ List.mem_map.mpr ⟨x, hx, rfl⟩)
        simp [hxid]
      rw [htail, List.map_id]
    · have hqid : ¬(q.id = p.id) := by
        intro hcontra
        exact (List.nodup_cons.mp hnd).1
          (hcontra ▸ List.mem_map.mpr ⟨p, hpt, rfl⟩)
      rw [List.map_cons, if_neg hqid]
      rw [ih hpt (List.nodup_cons.mp hnd).2]

lemma foldl_do_update_roundtrip :
    ∀ (l st : List Produto), (∀ p ∈ l, canonical p = true ∧ p ∈ st) →
      (st.map Produto.id).Nodup →
      (l.map normalize_row).foldl do_update st = st := by
  intro l
  induction l with
  | nil => intro st _ _; rfl
  | cons p t ih =>
    intro st h hnd
    rw [List.map_cons, List.foldl_cons]
    have hp := h p (List.mem_cons_self p t)
    have hstep : do_update st (normalize_row p) = st := by
      unfold do_update
      have hid : int_of_id (normalize_row p).id = some p.id := rfl
      rw [hid]
      unfold apply_update
      have hw : written_row p.id (normalize_row p) = p :=
        written_row_normalize_eq p hp.1
      simp only [hw]
      exact map_update_self p st hp.2 hnd
    rw [hstep]
    exact ih st (fun p' hp' => h p' (List.mem_cons_of_mem _ hp')) hnd

/-- A stored row whose status column is NULL. -/
def prodNullStatus : Produto where
  id := 1
  produto := some "Exemplo 1"
  sku := some "SKU001"
  categoria := some "Medicamento"
  qtd_atual := some 5
  ponto_reposicao := some 350
  status_reposicao := none
  disponivel_mercado := some 1
  fornecedor := some "Fornecedor A"
  data_ultima_compra := DateCell.null
  previsao_entrega := DateCell.null
  consumo_diario := none

/-- Counterexample to C9: loading a row whose stored status is NULL and
saving it back without edits persists "nao_solicitado" instead of NULL, so
the round trip changes a data-model field. -/
theorem c9_roundtrip_counterexample :
    save_changes [prodNullStatus] [normalize_row prodNullStatus] ≠
      [prodNullStatus] ∧
    (save_changes [prodNullStatus] [normalize_row prodNullStatus]).map
      Produto.status_reposicao = [some "nao_solicitado"] ∧
    prodNullStatus.status_reposicao = none := by decide

/-- C9 (amended): the load/no-edit-save/reload round trip preserves every
persisted field of every row of the store, provided the stored rows are in
the normal form the save itself writes (quantities, availability and a
nonempty status present, dates NULL or ISO, `consumo_diario` NULL); rows
with NULL in a defaultable column are instead rewritten with the defaults
0 / 1 / "nao_solicitado". -/
theorem c9_roundtrip (st : List Produto)
    (hc : ∀ p ∈ st, canonical p = true)
    (hnd : (st.map Produto.id).Nodup) :
    save_changes st (st.map normalize_row) = st := by
  unfold save_changes
  have hfilter1 : (st.map normalize_row).filter (fun r => notna_id r.id) =
      st.map normalize_row := by
    rw [List.filter_eq_self]
    intro r hr
    rcases List.mem_map.mp hr with ⟨p, _, rfl⟩
    rfl
  have hfilter2 : (st.map normalize_row).filter (fun r => !notna_id r.id) = [] := by
    rw [List.filter_eq_nil_iff]
    intro r hr
    rcases List.mem_map.mp hr with ⟨p, _, rfl⟩
    simp [normalize_row, notna_id]
  rw [hfilter1, hfilter2]
  simp only [List.foldl_nil]
  exact foldl_do_update_roundtrip st st (fun p hp => ⟨hc p hp, hp⟩) hnd

/-- A two-row store in normal form. -/
def prodCanon1 : Produto where
  id := 1
  produto := some "Exemplo 1"
  sku := some "SKU001"
  categoria := some "Medicamento"
  qtd_atual := some 5
  ponto_reposicao := some 350
  status_reposicao := some "nao_solicitado"
  disponivel_mercado := some 1
  fornecedor := some "Fornecedor A"
  data_ultima_compra := DateCell.iso 20000
  previsao_entrega := DateCell.null
  consumo_diario := none

/-- Second normal-form row. -/
def prodCanon2 : Produto where
  id := 2
  produto := some "Exemplo 2"
  sku := some "SKU002"
  categoria := some "Insumo"
  qtd_atual := some 0
  ponto_reposicao := some 700
  status_reposicao := some "solicitado"
  disponivel_mercado := some 0
  fornecedor := some "Fornecedor B"
  data_ultima_compra := DateCell.null
  previsao_entrega := DateCell.iso 20100
  consumo_diario := none

/-- Witness for C9 (amended): the two sample rows, loaded and saved without
edits, are persisted unchanged. -/
theorem c9_roundtrip_witness :
    save_changes [prodCanon1, prodCanon2]
      ([prodCanon1, prodCanon2].map normalize_row) = [prodCanon1, prodCanon2] :=
  c9_roundtrip [prodCanon1, prodCanon2] (by decide) (by decide)

/-! ## C3: df.sort_values("prioridade", ascending=False) (line 347)

pandas sorts a single column through `nargsort(values, kind="quicksort",
ascending=False)`: the value array and the index array are reversed, the
reversed values are argsorted ascending with numpy's default sort, the
result is mapped through the reversed index array and finally reversed.
numpy's default (arg)sort is the introsort of npysort/quicksort.c.src:
median-of-3 quicksort partitioning down to ranges of at most 16 elements
(SMALL_QUICKSORT = 15), insertion sort on the small ranges, and a switch to
heapsort once the partition count exceeds 2*msb(n).  The translation below
follows that source index-for-index; the C pointer loops become fuel-bounded
structural recursions whose fuel strictly exceeds the iterations the C code
can perform, so the fuel-exhaustion branches are never taken. -/

/-- numpy INTP_SWAP on the index array. -/
def np_swap (t : Array Nat) (i j : Nat) : Array Nat :=
  let vi := t.getD i 0
  let vj := t.getD j 0
  (t.setD i vj).setD j vi

/-- Value at sort position `i`, i.e. `v[t[i]]`. -/
def vat (v : Array Int) (t : Array Nat) (i : Nat) : Int :=
  v.getD (t.getD i 0) 0

/-- The `do ++pi; while (v[*pi] < vp)` scan: first position at or after `i`
whose value is not below the pivot. -/
def scan_lo (v : Array Int) (t : Array Nat) (vp : Int) : Nat → Nat → Nat
  | i, 0 => i
  | i, fuel+1 => if vat v t i < vp then scan_lo v t vp (i+1) fuel else i

/-- The `do --pj; while (vp < v[*pj])` scan: first position at or below `j`
whose value is not above the pivot. -/
def scan_hi (v : Array Int) (t : Array Nat) (vp : Int) : Nat → Nat → Nat
  | j, 0 => j
  | j, fuel+1 => if vp < vat v t j then scan_hi v t vp (j-1) fuel else j

/-- The swap loop of the quicksort partition. -/
def part_loop (v : Array Int) (vp : Int) : Array Nat → Nat → Nat → Nat → Array Nat × Nat
  | t, _, _, 0 => (t, 0)
  | t, pi, pj, fuel+1 =>
    let pi2 := scan_lo v t vp (pi+1) t.size
    let pj2 := scan_hi v t vp (pj-1) t.size
    if pj2 ≤ pi2 then (t, pi2)
    else part_loop v vp (np_swap t pi2 pj2) pi2 pj2 fuel

/-- One median-of-3 partition of the range [pl, pr], returning the new index
array and the final pivot position `pi`. -/
def partition_step (v : Array Int) (t : Array Nat) (pl pr : Nat) : Array Nat × Nat :=
  let pm := pl + ((pr - pl) / 2)
  let t1 := if vat v t pm < vat v t pl then np_swap t pm pl else t
  let t2 := if vat v t1 pr < vat v t1 pm then np_swap t1 pr pm else t1
  let t3 := if vat v t2 pm < vat v t2 pl then np_swap t2 pm pl else t2
  let vp := vat v t3 pm
  let t4 := np_swap t3 pm (pr - 1)
  let tp := part_loop v vp t4 pl (pr - 1) (pr + 1)
  let t6 := np_swap tp.1 tp.2 (pr - 1)
  (t6, tp.2)

/-- The shifting loop of the insertion sort: move `pj` down from `pi` while
the predecessor's value exceeds `vp`, copying indices upward. -/
def ains_shift (v : Array Int) (vp : Int) (pl : Nat) : Array Nat → Nat → Nat → Array Nat × Nat
  | t, pj, 0 => (t, pj)
  | t, pj, fuel+1 =>
    if pl < pj ∧ vp < v.getD (t.getD (pj-1) 0) 0 then
      ains_shift v vp pl (t.setD pj (t.getD (pj-1) 0)) (pj-1) fuel
    else (t, pj)

/-- One outer step of the insertion sort at position `pi`. -/
def ains_step (v : Array Int) (t : Array Nat) (pl pi : Nat) : Array Nat :=
  let vi := t.getD pi 0
  let vp := v.getD vi 0
  let tp := ains_shift v vp pl t pi pi
  tp.1.setD tp.2 vi

/-- The outer loop of the insertion sort over [pl, pr]. -/
def ains_go (v : Array Int) (pl pr : Nat) : Array Nat → Nat → Nat → Array Nat
  | t, _, 0 => t
  | t, pi, fuel+1 =>
    if pi ≤ pr then ains_go v pl pr (ains_step v t pl pi) (pi+1) fuel
    else t

/-- Insertion sort of the index range [pl, pr] (the small-range tail of
numpy's aquicksort). -/
def ains_range (v : Array Int) (t : Array Nat) (pl pr : Nat) : Array Nat :=
  ains_go v pl pr t (pl+1) (pr + 1 - pl)

/-- The sift-down loop shared by both phases of numpy's aheapsort; `a[k]`
denotes `t[pl + k - 1]` (the C code works 1-based).  Returns the array and
the final `i`. -/
def aheap_sift (v : Array Int) (pl n : Nat) (tmp : Nat) : Array Nat → Nat → Nat → Nat → Array Nat × Nat
  | t, i, _, 0 => (t, i)
  | t, i, j, fuel+1 =>
    if j ≤ n then
      let j2 := if j < n ∧ v.getD (t.getD (pl+j-1) 0) 0 < v.getD (t.getD (pl+j) 0) 0
        then j+1 else j
      if v.getD tmp 0 < v.getD (t.getD (pl+j2-1) 0) 0 then
        aheap_sift v pl n tmp (t.setD (pl+i-1) (t.getD (pl+j2-1) 0)) j2 (j2+j2) fuel
      else (t, i)
    else (t, i)

/-- Heap construction: `l` runs from n/2 down to 1. -/
def aheap_phase1 (v : Array Int) (pl n : Nat) : Array Nat → Nat → Array Nat
  | t, 0 => t
  | t, l+1 =>
    let tmp := t.getD (pl+l) 0
    let tp := aheap_sift v pl n tmp t (l+1) (2*(l+1)) (n+2)
    aheap_phase1 v pl n (tp.1.setD (pl+tp.2-1) tmp) l

/-- Extraction: the current heap size runs from n down to 2. -/
def aheap_phase2 (v : Array Int) (pl : Nat) : Array Nat → Nat → Array Nat
  | t, 0 => t
  | t, 1 => t
  | t, m+2 =>
    let tmp := t.getD (pl+m+1) 0
    let t1 := t.setD (pl+m+1) (t.getD pl 0)
    let tp := aheap_sift v pl (m+1) tmp t1 1 2 (m+3)
    aheap_phase2 v pl (tp.1.setD (pl+tp.2-1) tmp) (m+1)

/-- numpy aheapsort of the index range [pl, pr]. -/
def aheapsort_range (v : Array Int) (t : Array Nat) (pl pr : Nat) : Array Nat :=
  let n := pr + 1 - pl
  aheap_phase2 v pl (aheap_phase1 v pl n t (n / 2)) n

/-- The introsort driver of numpy's aquicksort: partition while the range
holds more than 16 positions, recursing into the smaller side first exactly
as the C code does with its explicit stack (it pushes the larger side),
threading the global `depth_limit` counter; ranges of at most 16 positions
are insertion sorted; a range met with the counter exhausted is heapsorted.
The `fuel` bounds the recursion depth, which never exceeds the range size
because every partition shrinks the range. -/
def aquicksort_rec (v : Array Int) : Array Nat → Nat → Nat → Int → Nat → Array Nat × Int
  | t, _, _, depth, 0 => (t, depth)
  | t, pl, pr, depth, fuel+1 =>
    if pr ≤ pl + 15 then (ains_range v t pl pr, depth)
    else if depth < 0 then (aheapsort_range v t pl pr, depth - 1)
    else
      let tp := partition_step v t pl pr
      let pi := tp.2
      if pi - pl < pr - pi then
        let tq := aquicksort_rec v tp.1 pl (pi-1) (depth - 1) fuel
        aquicksort_rec v tq.1 (pi+1) pr tq.2 fuel
      else
        let tq := aquicksort_rec v tp.1 (pi+1) pr (depth - 1) fuel
        aquicksort_rec v tq.1 pl (pi-1) tq.2 fuel

/-- numpy `argsort(kind="quicksort")` of an int column: introsort of the
index array `[0, ..., n-1]` with `depth_limit = 2 * msb(n)`. -/
def np_aargsort (v : Array Int) : Array Nat :=
  let num := v.size
  if num = 0 then #[]
  else (aquicksort_rec v (Array.range num) 0 (num - 1) (2 * Nat.log2 num) num).1

/-- Embedding of pandas `nargsort(values, kind="quicksort", ascending=False)`
for a NaN-free integer column, as invoked by
`df.sort_values("prioridade", ascending=False)`: reverse the values,
argsort ascending, map through the reversed positions, reverse the indexer.
Output position `k` of the sorted frame holds input row `(nargsort_desc l).get k`. -/
def nargsort_desc (items : List Int) : List Nat :=
  let n := items.length
  let sorter := np_aargsort items.reverse.toArray
  (sorter.toList.map (fun j => n - 1 - j)).reverse

set_option maxRecDepth 40000 in
/-- C3 (evaluation at the failing input): on a snapshot of 17 rows of equal
priority the descending sort of line 347 is not stable — the indexer is not
the identity (input row 9 lands at output position 1), although on
snapshots of at most 16 rows (numpy's insertion-sort regime) ties do keep
input order, and values are correctly sorted descending in either case. -/
theorem c3_sort_not_stable :
    nargsort_desc (List.replicate 17 0) =
      [0, 9, 15, 14, 13, 12, 11, 10, 8, 1, 7, 6, 5, 4, 3, 2, 16] ∧
    nargsort_desc (List.replicate 17 0) ≠ List.range 17 ∧
    nargsort_desc (List.replicate 16 0) = List.range 16 ∧
    nargsort_desc [1, 0, 2] = [2, 0, 1] := by
  refine ⟨by decide, by decide, by decide, by decide⟩
